import Mathlib

/-!
Verification of the RhymeTime browser extension (Song-Generator repository).

This file gives a shallow embedding of the pipeline code:
* the content script `ContentExtractor` (content extraction and cleaning),
* the `GeminiAPI` client (prompt construction, retry loop, response cleaning,
  local fallback templating),
* the `AudioGenerator` (cache keyed by a rolling hash, FIFO-bounded cache,
  backend dispatch with local-synthesis fallback),
* the background proxy-relay client (`handleRhymeGeneration`),
* the popup history store (`saveToHistory`),
and proves the behavioural claims about them.

Modelling conventions:
* JavaScript strings are Lean `String`s viewed as their character sequences.
* JavaScript `null`/`undefined`-able values are `Option`s; JS truthiness of a
  string (`""`, `null` are falsy) is modelled by dedicated helpers.
* Machine-level 32-bit truncation (`hash & hash`) is modelled on `Int` with an
  explicit reduction modulo 2^32 into the signed range.
* Exceptions are `Except String`; a `try/catch` is a `match` on the result.
* The DOM itself is not representable, so the four extraction strategies of the
  content script (which only read the page) are abstracted as page-supplied
  outcomes: a `PageState` records, for each strategy, the value it returns or
  the exception it throws on that page.  Everything downstream of the DOM reads
  (the fallback chain, cleaning, truncation, the catch-all) is embedded from
  the source.
-/

/-! ### Shared JavaScript primitives -/

/-- The apostrophe character (U+0027), used in several source string literals. -/
def apos : Char := Char.ofNat 39

/-- String consisting of a single apostrophe. -/
def aposS : String := String.singleton apos

/-- Characters matched by the JavaScript regex class `\s` (the ones relevant to
this code base: ASCII whitespace plus no-break space). -/
def jsWhitespace (c : Char) : Bool :=
  c = ' ' || c = '\t' || c = '\n' || c = '\r' ||
  c = Char.ofNat 11 || c = Char.ofNat 12 || c = Char.ofNat 160

/-- JS `x || dflt` for a possibly-missing string (both `undefined` and `""` are
falsy). -/
def jsOrS (x : Option String) (dflt : String) : String :=
  match x with
  | none => dflt
  | some s => if s = "" then dflt else s

/-- JS truthiness of a possibly-missing string. -/
def jsTruthyS (x : Option String) : Bool :=
  match x with
  | none => false
  | some s => !(s = "")

/-- JS `x || dflt` for a possibly-missing number (`undefined` and `0` falsy). -/
def jsOrNat (x : Option Nat) (dflt : Nat) : Nat :=
  match x with
  | none => dflt
  | some n => if n = 0 then dflt else n

mutual

/-- Splitting on a regex of the form `[C]+` (one or more separator
characters), as JS `String.prototype.split` does: separators are maximal runs
of characters satisfying `p`; a leading or trailing run contributes an empty
field, and the empty string yields `[""]`.  `splitRunsGo` accumulates the
current field; `splitRunsSkip` consumes the remainder of a separator run. -/
def splitRunsGo (p : Char → Bool) : List Char → List Char → List (List Char)
  | [], acc => [acc.reverse]
  | c :: rest, acc =>
    if p c then acc.reverse :: splitRunsSkip p rest
    else splitRunsGo p rest (c :: acc)

/-- See `splitRunsGo`. -/
def splitRunsSkip (p : Char → Bool) : List Char → List (List Char)
  | [] => [[]]
  | c :: rest =>
    if p c then splitRunsSkip p rest
    else splitRunsGo p rest [c]

end

/-- JS `s.split(re)` for a character-class regex, on strings. -/
def jsSplit (p : Char → Bool) (s : String) : List String :=
  (splitRunsGo p s.data []).map String.mk

/-- JS `String.prototype.trim` on character lists. -/
def jsTrimL (l : List Char) : List Char :=
  ((l.dropWhile jsWhitespace).reverse.dropWhile jsWhitespace).reverse

/-- JS `String.prototype.trim`. -/
def jsTrim (s : String) : String := String.mk (jsTrimL s.data)

/-- `countWords(text)` — identical helper defined in `gemini.js`, the
background script and the content script:
`text ? text.split(/\s+/).filter((word) => word.length > 0).length : 0`. -/
def countWords (text : String) : Nat :=
  if text = "" then 0
  else ((jsSplit jsWhitespace text).filter (fun w => w.length > 0)).length

/-- Case-insensitive prefix test (JS regex flag `i`, ASCII letters). -/
def isPrefixCI : List Char → List Char → Bool
  | [], _ => true
  | _ :: _, [] => false
  | p :: ps, c :: cs => (p.toLower = c.toLower) && isPrefixCI ps cs

/-- JS `s.substring(0, n)` (character count). -/
def jsSubstringTo (s : String) (n : Nat) : String := String.mk (s.data.take n)

/-- JS `s.toLowerCase()` (basic-latin letters, the only ones compared here). -/
def jsToLower (s : String) : String := String.mk (s.data.map Char.toLower)

/-- JS `s.startsWith(pre)`. -/
def jsStartsWith (s pre : String) : Bool := pre.data.isPrefixOf s.data

/-! ### ContentExtractor (content script, `src/unnamed/part_001`) -/

namespace ContentExtractor

mutual

/-- `content.replace(/\s+/g, " ")`: collapse every whitespace run to a single
space.  `collapseSkip` consumes the remainder of a whitespace run. -/
def collapseWs : List Char → List Char
  | [] => []
  | c :: rest =>
    if jsWhitespace c then ' ' :: collapseSkip rest
    else c :: collapseWs rest

/-- See `collapseWs`. -/
def collapseSkip : List Char → List Char
  | [] => []
  | c :: rest =>
    if jsWhitespace c then collapseSkip rest
    else c :: collapseWs rest

end

/-- `content.replace(new RegExp(phrase, "gi"), "")` for a literal non-empty
phrase: remove all case-insensitive occurrences, scanning left to right.  The
`fuel` argument (initialised to the list length, which the scan never
exhausts) makes the recursion structural. -/
def removeCIGo (phrase : List Char) : Nat → List Char → List Char
  | _, [] => []
  | 0, l => l
  | fuel + 1, c :: rest =>
    if isPrefixCI phrase (c :: rest) && phrase.length > 0 then
      removeCIGo phrase fuel ((c :: rest).drop phrase.length)
    else
      c :: removeCIGo phrase fuel rest

/-- See `removeCIGo`. -/
def removeCI (phrase l : List Char) : List Char := removeCIGo phrase l.length l

/-- The fixed boilerplate-phrase list of `cleanContent`. -/
def unwantedPhrases : List String :=
  ["Click here", "Read more", "Continue reading", "Share this", "Subscribe",
   "Sign up", "Log in", "Cookie policy", "Privacy policy"]

/-- `ContentExtractor.cleanContent` (part_001 lines 187–217): collapse
whitespace, strip boilerplate phrases case-insensitively, truncate to 3000
characters with an `"..."` marker, and trim. -/
def cleanContent (content : String) : String :=
  if content = "" then ""
  else
    let c1 := collapseWs content.data
    let c2 := unwantedPhrases.foldl (fun acc p => removeCI p.data acc) c1
    let c3 := if c2.length > 3000 then c2.take 3000 ++ "...".data else c2
    String.mk (jsTrimL c3)

/-- The record produced by `extractContent`. -/
structure ExtractedContent where
  content : String
  title : String
  url : String
  wordCount : Nat
  extractedAt : String
  deriving Repr, DecidableEq

/-- Abstraction of one page's DOM, as seen by the extractor: for each of the
four extraction strategies, the outcome of running it against this page
(`Except.error` models a thrown exception; `none` models returning `null`).
`extractFallback` always produces a string in the source, so its success value
is a plain string.  `titleRaw` is `document.title` (possibly empty), `url` is
`window.location.href`, `now` the current ISO timestamp. -/
structure PageState where
  extractByStructure : Except String (Option String)
  extractByReadability : Except String (Option String)
  extractByTextDensity : Except String (Option String)
  extractFallback : Except String String
  titleRaw : String
  url : String
  now : String

/-- JS truthiness of a strategy result (`null` and `""` are falsy). -/
def truthyContent (x : Option String) : Bool :=
  match x with
  | none => false
  | some s => !(s = "")

/-- The body of the `try` block of `extractContent`: the
`a() || b() || c() || d()` fallback chain (first truthy value wins, last value
otherwise), where any thrown exception aborts the chain. -/
def extractionChain (p : PageState) : Except String String := do
  let a ← p.extractByStructure
  if truthyContent a then pure (a.getD "")
  else
    let b ← p.extractByReadability
    if truthyContent b then pure (b.getD "")
    else
      let c ← p.extractByTextDensity
      if truthyContent c then pure (c.getD "")
      else
        p.extractFallback

/-- `ContentExtractor.extractContent` (part_001 lines 26–58): run the strategy
chain, clean the result and attach metadata; on any exception return the
degraded placeholder record. -/
def extractContent (p : PageState) : ExtractedContent :=
  match extractionChain p with
  | .ok raw =>
    let content := cleanContent raw
    { content := content
      title := jsOrS (some p.titleRaw) "Untitled Page"
      url := p.url
      wordCount := countWords content
      extractedAt := p.now }
  | .error _ =>
    { content := "Unable to extract content from this page."
      title := jsOrS (some p.titleRaw) "Unknown Page"
      url := p.url
      wordCount := 0
      extractedAt := p.now }

end ContentExtractor

/-! ### GeminiAPI client (`src/gemini.js`) -/

namespace Gemini

/-- One row of the `lengthSpecs` table of `createPrompt`. -/
structure LengthSpec where
  lines : String
  verses : String
  duration : String
  deriving Repr, DecidableEq

/-- One row of the `styleGuides` table of `createPrompt`.  The source field
`structure` is called `struct` here because `structure` is a Lean keyword. -/
structure StyleGuide where
  rhythm : String
  rhymeScheme : String
  language : String
  struct : String
  examples : String
  deriving Repr, DecidableEq

/-- The `lengthSpecs` object (property access on a missing key is `none`). -/
def lengthSpecs (length : String) : Option LengthSpec :=
  if length = "short" then
    some { lines := "4-6 lines", verses := "1 verse", duration := "brief" }
  else if length = "medium" then
    some { lines := "8-12 lines", verses := "2-3 verses", duration := "moderate" }
  else if length = "long" then
    some { lines := "16-24 lines", verses := "3-4 verses", duration := "extended" }
  else none

/-- The `styleGuides` object. -/
def styleGuides (style : String) : Option StyleGuide :=
  if style = "rap" then
    some { rhythm := "strong 4/4 beat with emphasis on beats 1 and 3"
           rhymeScheme := "AABB or ABAB with internal rhymes"
           language := "modern, rhythmic, with wordplay and flow"
           struct := "verses with punch lines"
           examples := "like Drake, Kendrick, or Eminem" }
  else if style = "pop" then
    some { rhythm := "catchy, upbeat tempo"
           rhymeScheme := "ABAB or AABA with memorable hooks"
           language := "accessible, melodic, radio-friendly"
           struct := "verse-chorus structure with hooks"
           examples := "like Taylor Swift, Ed Sheeran, or Dua Lipa" }
  else if style = "nursery" then
    some { rhythm := "simple, bouncy rhythm"
           rhymeScheme := "AABB perfect rhymes"
           language := "simple words, playful, innocent"
           struct := "repetitive patterns, easy to remember"
           examples := "like Twinkle Twinkle Little Star or Humpty Dumpty" }
  else if style = "ballad" then
    some { rhythm := "slow, emotional tempo"
           rhymeScheme := "ABAB or ABCB with flowing verses"
           language := "emotional, storytelling, descriptive"
           struct := "narrative verses building emotion"
           examples := "like Adele, Sam Smith, or classic folk ballads" }
  else if style = "country" then
    some { rhythm := "steady, storytelling rhythm"
           rhymeScheme := "AABA or ABAB with narrative flow"
           language := "folksy, down-to-earth, relatable"
           struct := "story-driven verses with choruses"
           examples := "like Johnny Cash, Dolly Parton, or Keith Urban" }
  else none

/-- The `toneAdjectives` object. -/
def toneAdjectives (tone : String) : Option String :=
  if tone = "fun" then some "playful, energetic, and entertaining"
  else if tone = "educational" then some "informative, clear, and engaging"
  else if tone = "humorous" then some "funny, witty, and clever"
  else if tone = "dramatic" then some "intense, emotional, and powerful"
  else if tone = "chill" then some "relaxed, smooth, and laid-back"
  else none

/-- The template literal of `createPrompt` (gemini.js lines 122–146), with the
interpolations written as string appends.  An undefined `toneDesc`
interpolates as the string `"undefined"` and is substituted by the caller. -/
def promptText (content : String) (guide : StyleGuide) (spec : LengthSpec)
    (style toneDesc title customInstructions : String) : String :=
  "Transform the following content into a " ++ toneDesc ++ " " ++ style ++
  " song/rhyme.\n\nCONTENT TO TRANSFORM:\nTitle: " ++ title ++
  "\nContent: " ++ jsSubstringTo content 2500 ++
  "\n\nSTYLE REQUIREMENTS:\n- Genre: " ++ style ++ " " ++ guide.examples ++
  "\n- Rhythm: " ++ guide.rhythm ++
  "\n- Rhyme scheme: " ++ guide.rhymeScheme ++
  "\n- Language style: " ++ guide.language ++
  "\n- Structure: " ++ guide.struct ++
  "\n- Length: " ++ spec.lines ++ " (" ++ spec.verses ++
  ")\n- Tone: " ++ toneDesc ++
  "\n\nCREATIVE GUIDELINES:\n1. Capture the main ideas and key information from the content\n2. Make it memorable and catchy with strong rhythm\n3. Use creative wordplay and metaphors appropriate to the style\n4. Ensure smooth flow and natural pronunciation\n5. Include hooks or memorable phrases that stick\n6. Make it " ++
  toneDesc ++ " while staying true to the content\n" ++
  (if customInstructions = "" then ""
   else "7. Additional instructions: " ++ customInstructions) ++
  "\n\nIMPORTANT: Return ONLY the song/rhyme lyrics with clear verse breaks. No explanations, titles, or additional text."

/-- `GeminiAPI.createPrompt` (gemini.js lines 65–149).  In the source, an
unknown style or length makes the template throw a `TypeError` when reading a
property of `undefined` (modelled as `none`); an unknown tone interpolates the
string `"undefined"`. -/
def createPrompt (content style length tone title customInstructions : String) :
    Option String :=
  match styleGuides style, lengthSpecs length with
  | some guide, some spec =>
    some (promptText content guide spec style
      ((toneAdjectives tone).getD "undefined") title customInstructions)
  | _, _ => none

/-- `this.maxRetries`. -/
def maxRetries : Nat := 3

/-- `this.retryDelay` (milliseconds). -/
def retryDelay : Nat := 1000

/-- Abstraction of one HTTP exchange of `callGeminiAPI`: `ok`/`status` mirror
the fetch `Response`; `errorMessage` is `errorData.error?.message` when the
error body parses (else `none`); `candidatesText` is
`candidates[0].content.parts[0].text` when the response has the expected
shape, `none` when the shape is invalid. -/
structure GeminiResponse where
  ok : Bool
  status : Nat
  errorMessage : Option String
  candidatesText : Option String
  deriving Repr, DecidableEq

/-- The response-checking part of the `try` block of `callGeminiAPI`
(gemini.js lines 188–199). -/
def processResponse (r : GeminiResponse) : Except String String :=
  if !r.ok then
    .error ("API request failed: " ++ toString r.status ++ " - " ++
      jsOrS r.errorMessage "Unknown error")
  else
    match r.candidatesText with
    | none => .error "Invalid response format from Gemini API"
    | some t => .ok t

/-- Environment of the Gemini client: the resolved API key (via
`getApiKey`/chrome storage) and the network, as a function from
(prompt, key, attempt number) to the fetch outcome (`.error` = fetch threw). -/
structure GenEnv where
  apiKey : Option String
  backend : String → String → Nat → Except String GeminiResponse
  now : String

/-- The full body of the `try` block of `callGeminiAPI` for one attempt:
perform the fetch and check the response. -/
def attemptOnce (env : GenEnv) (prompt apiKey : String) (attempt : Nat) :
    Except String String :=
  match env.backend prompt apiKey attempt with
  | .error e => .error e
  | .ok r => processResponse r

/-- Result of `callGeminiAPI` together with an execution trace: which attempt
numbers invoked the backend, and which backoff delays (ms) were awaited. -/
structure CallOut where
  result : Except String String
  attempts : List Nat
  delays : List Nat
  deriving Repr

/-- `GeminiAPI.callGeminiAPI` (gemini.js lines 152–208): on any failure with
`attempt < maxRetries`, wait `retryDelay * attempt` and recurse with
`attempt + 1`; a failure on the final attempt propagates.  The recursion is
made structural on the number of remaining retries,
`maxRetries - attempt` (so `remaining = 0` is exactly the source's
`attempt >= maxRetries` final-attempt case). -/
def callGeminiGo (env : GenEnv) (prompt apiKey : String) :
    Nat → Nat → CallOut
  | attempt, 0 =>
    match attemptOnce env prompt apiKey attempt with
    | .ok text => { result := .ok text, attempts := [attempt], delays := [] }
    | .error e => { result := .error e, attempts := [attempt], delays := [] }
  | attempt, remaining + 1 =>
    match attemptOnce env prompt apiKey attempt with
    | .ok text => { result := .ok text, attempts := [attempt], delays := [] }
    | .error _ =>
      let rest := callGeminiGo env prompt apiKey (attempt + 1) remaining
      { result := rest.result
        attempts := attempt :: rest.attempts
        delays := retryDelay * attempt :: rest.delays }

/-- See `callGeminiGo`. -/
def callGeminiAPI (env : GenEnv) (prompt apiKey : String) (attempt : Nat) :
    CallOut :=
  callGeminiGo env prompt apiKey attempt (maxRetries - attempt)

/-- Characters the JS regex `.` does not match (no `s` flag). -/
def notNewline (c : Char) : Bool := !(c = '\n' || c = '\r')

/-- Scan for the `.*?:` part of `/^(Here's|Here is).*?:\s*/i`: find the first
colon reachable without crossing a newline, returning what follows it. -/
def scanToColon : List Char → Option (List Char)
  | [] => none
  | c :: rest =>
    if c = ':' then some rest
    else if notNewline c then scanToColon rest
    else none

/-- The characters of the literal `Here's`. -/
def heresPat : List Char := ['H', 'e', 'r', 'e', apos, 's']

/-- The characters of the literal `Here is`. -/
def hereIsPat : List Char := "Here is".data

/-- `.replace(/^(Here's|Here is).*?:\s*/i, "")` (gemini.js line 216). -/
def stripHereIntro (l : List Char) : List Char :=
  let matched : Option (List Char) :=
    if isPrefixCI heresPat l then some (l.drop heresPat.length)
    else if isPrefixCI hereIsPat l then some (l.drop hereIsPat.length)
    else none
  match matched with
  | none => l
  | some rest =>
    match scanToColon rest with
    | none => l
    | some afterColon => afterColon.dropWhile jsWhitespace

/-- The alternatives of `/^(Song|Rhyme|Lyrics):\s*/i`, with their colons. -/
def labelPats : List (List Char) := ["Song:".data, "Rhyme:".data, "Lyrics:".data]

/-- `.replace(/^(Song|Rhyme|Lyrics):\s*/i, "")` (gemini.js line 217). -/
def stripLabelIntro (l : List Char) : List Char :=
  match labelPats.find? (fun p => isPrefixCI p l) with
  | none => l
  | some p => (l.drop p.length).dropWhile jsWhitespace

/-- Lazy search for the closing `**` of `/\*\*(.*?)\*\*/`: the least index `i`
with `l[i] = l[i+1] = '*'` such that everything before `i` is matchable by `.`
(no newline). -/
def boldCloseIdx (l : List Char) : Option Nat :=
  (List.range l.length).find? (fun i =>
    decide (l.get? i = some '*') && decide (l.get? (i + 1) = some '*') &&
    (l.take i).all notNewline)

/-- `.replace(/\*\*(.*?)\*\*/g, "$1")` (gemini.js line 218): remove markdown
bold markers, keeping the group; with no closing `**` the scan moves on by one
character, as the regex engine does.  Structural on a fuel argument
initialised to the list length (never exhausted). -/
def unboldGo : Nat → List Char → List Char
  | _, [] => []
  | 0, l => l
  | _ + 1, [c] => [c]
  | fuel + 1, c :: c2 :: rest2 =>
    if c = '*' && c2 = '*' then
      match boldCloseIdx rest2 with
      | some i => rest2.take i ++ unboldGo fuel (rest2.drop (i + 2))
      | none => c :: unboldGo fuel (c2 :: rest2)
    else c :: unboldGo fuel (c2 :: rest2)

/-- See `unboldGo`. -/
def unbold (l : List Char) : List Char := unboldGo l.length l

/-- Lazy search for the closing `*` of `/\*(.*?)\*/`. -/
def italCloseIdx (l : List Char) : Option Nat :=
  (List.range l.length).find? (fun i =>
    decide (l.get? i = some '*') && (l.take i).all notNewline)

/-- `.replace(/\*(.*?)\*/g, "$1")` (gemini.js line 219).  Structural on a
fuel argument initialised to the list length (never exhausted). -/
def unitalicGo : Nat → List Char → List Char
  | _, [] => []
  | 0, l => l
  | fuel + 1, c :: rest =>
    if c = '*' then
      match italCloseIdx rest with
      | some i => rest.take i ++ unitalicGo fuel (rest.drop (i + 1))
      | none => c :: unitalicGo fuel rest
    else c :: unitalicGo fuel rest

/-- See `unitalicGo`. -/
def unitalic (l : List Char) : List Char := unitalicGo l.length l

/-- `.replace(/\n\s*\n/g, "\n\n")` (gemini.js line 223): a newline whose
following whitespace run contains another newline is collapsed, together with
the run up to its last newline, into exactly two newlines.  Structural on a
fuel argument initialised to the list length (never exhausted). -/
def blankCollapseGo : Nat → List Char → List Char
  | _, [] => []
  | 0, l => l
  | fuel + 1, c :: rest =>
    if c = '\n' then
      let run := rest.takeWhile jsWhitespace
      let tailNoNl := run.reverse.takeWhile (fun ch => !(ch = '\n'))
      if tailNoNl.length < run.length then
        '\n' :: '\n' :: blankCollapseGo fuel (rest.drop (run.length - tailNoNl.length))
      else
        c :: blankCollapseGo fuel rest
    else c :: blankCollapseGo fuel rest

/-- See `blankCollapseGo`. -/
def blankCollapse (l : List Char) : List Char := blankCollapseGo l.length l

/-- `GeminiAPI.cleanResponse` (gemini.js lines 211–226). -/
def cleanResponse (response : String) : String :=
  if response = "" then ""
  else
    let c1 := stripHereIntro response.data
    let c2 := stripLabelIntro c1
    let c3 := unbold c2
    let c4 := unitalic c3
    let c5 := jsTrimL c4
    String.mk (blankCollapse c5)

/-- Sentence separators of `extractKeyPoints`: the class `[.!?]+`. -/
def sentenceSep (c : Char) : Bool := c = '.' || c = '!' || c = '?'

/-- `GeminiAPI.extractKeyPoints` (gemini.js lines 256–259):
`content.split(/[.!?]+/).filter(s => s.trim().length > 10)` then
`.slice(0, maxPoints).map(s => s.trim())`. -/
def extractKeyPoints (content : String) (maxPoints : Nat) : List String :=
  ((((jsSplit sentenceSep content).filter
      (fun s => (jsTrim s).length > 10)).take maxPoints).map jsTrim)

/-- `GeminiAPI.generateFallbackRhyme` (gemini.js lines 229–253):
`templates[style] || templates.pop`, where each template splices the first two
key points joined by `",\n"` into fixed lyrics. -/
def generateFallbackRhyme (content style : String) : String :=
  let pts := String.intercalate ",\n" (extractKeyPoints content 2)
  if style = "rap" then
    "Yo, check this out, let me break it down,\n" ++ pts ++
    "\nThat" ++ aposS ++ "s the story, that" ++ aposS ++ "s the sound!"
  else if style = "pop" then
    "Here" ++ aposS ++ "s a story that you need to know,\n" ++ pts ++
    "\nNow you" ++ aposS ++ "ve heard it, now you know!"
  else if style = "nursery" then
    "Listen close to what I say,\n" ++ pts ++
    "\nThat" ++ aposS ++ "s the story for today!"
  else if style = "ballad" then
    "Let me tell you of a tale,\n" ++ pts ++
    "\nThis story will never fail."
  else if style = "country" then
    "Gather " ++ aposS ++ "round, I" ++ aposS ++ "ll tell you true,\n" ++ pts ++
    "\nThat" ++ aposS ++ "s the story, through and through."
  else
    "Here" ++ aposS ++ "s a story that you need to know,\n" ++ pts ++
    "\nNow you" ++ aposS ++ "ve heard it, now you know!"

/-- The `metadata` record of a successful `transformToRhyme`. -/
structure RhymeMetadata where
  style : String
  length : String
  tone : String
  wordCount : Nat
  generatedAt : String
  deriving Repr, DecidableEq

/-- The result record of `transformToRhyme`. -/
structure RhymeResult where
  success : Bool
  rhyme : Option String := none
  metadata : Option RhymeMetadata := none
  error : Option String := none
  fallback : Option String := none
  deriving Repr, DecidableEq

/-- The destructured `options` of `transformToRhyme`, with its defaults. -/
structure RhymeOptions where
  style : String := "pop"
  length : String := "medium"
  tone : String := "fun"
  title : String := ""
  customInstructions : String := ""
  deriving Repr, DecidableEq

/-- `GeminiAPI.transformToRhyme` (gemini.js lines 31–62): resolve the key
(falsy key throws), build the prompt, call the API with retries; on success
return the cleaned rhyme with metadata whose `wordCount` is computed on the
raw response; on any caught error return `success:false` with the local
fallback rhyme. -/
def transformToRhyme (env : GenEnv) (content : String) (opts : RhymeOptions) :
    RhymeResult :=
  let attempted : Except String String := do
    let key ←
      if jsTruthyS env.apiKey then pure (env.apiKey.getD "")
      else Except.error "Gemini API key not configured"
    let prompt ←
      match createPrompt content opts.style opts.length opts.tone opts.title
          opts.customInstructions with
      | some p => pure p
      | none => Except.error "TypeError: cannot read properties of undefined"
    (callGeminiAPI env prompt key 1).result
  match attempted with
  | .ok response =>
    { success := true
      rhyme := some (cleanResponse response)
      metadata := some
        { style := opts.style, length := opts.length, tone := opts.tone
          wordCount := countWords response, generatedAt := env.now } }
  | .error e =>
    { success := false
      error := some e
      fallback := some (generateFallbackRhyme content opts.style) }

end Gemini

/-! ### AudioGenerator (`src/audiogenerator.js`) -/

namespace AudioGen

/-- A platform voice as seen by `selectVoice` (name and BCP-47 language). -/
structure Voice where
  name : String
  lang : String
  deriving Repr, DecidableEq

/-- One row of the per-style voice table of `getVoiceConfig`. -/
structure VoiceConfig where
  rate : Float
  pitch : Float
  volume : Float
  deriving Repr

/-- `AudioGenerator.getVoiceConfig`: `configs[style] || configs.pop`. -/
def getVoiceConfig (style : String) : VoiceConfig :=
  if style = "rap" then { rate := 1.3, pitch := 1.1, volume := 0.9 }
  else if style = "pop" then { rate := 1.0, pitch := 1.0, volume := 0.8 }
  else if style = "nursery" then { rate := 0.8, pitch := 1.2, volume := 0.7 }
  else if style = "ballad" then { rate := 0.7, pitch := 0.9, volume := 0.8 }
  else if style = "country" then { rate := 0.9, pitch := 0.95, volume := 0.8 }
  else { rate := 1.0, pitch := 1.0, volume := 0.8 }

/-- JS `String.prototype.includes` on character lists. -/
def listIncl : List Char → List Char → Bool
  | [], n => n.isEmpty
  | c :: rest, n => n.isPrefixOf (c :: rest) || listIncl rest n

/-- JS `s.includes(sub)`. -/
def strIncludes (s sub : String) : Bool := listIncl s.data sub.data

/-- The `stylePreferences` table of `selectVoice` (`[style] || []`). -/
def stylePreferences (style : String) : List String :=
  if style = "rap" then ["urban", "young", "energetic"]
  else if style = "pop" then ["clear", "pleasant", "modern"]
  else if style = "nursery" then ["child", "gentle", "soft"]
  else if style = "ballad" then ["emotional", "deep", "expressive"]
  else if style = "country" then ["warm", "folksy", "natural"]
  else []

/-- `AudioGenerator.selectVoice` (audiogenerator.js lines 232–264): filter to
truthy-named English voices, try the style keyword preferences, then the
gender keywords, then the first English voice. -/
def selectVoice (voices : List Voice) (style : String)
    (preferredGender : String) : Option Voice :=
  let englishVoices := voices.filter
    (fun v => jsStartsWith v.lang "en-" && !(v.name = ""))
  if englishVoices.isEmpty then none
  else
    match (stylePreferences style).findSome?
        (fun pref => englishVoices.find?
          (fun v => strIncludes (jsToLower v.name) pref)) with
    | some v => some v
    | none =>
      let genderVoices := englishVoices.filter (fun v =>
        let nm := jsToLower v.name
        if preferredGender = "male" then
          strIncludes nm "male" || strIncludes nm "man"
        else
          strIncludes nm "female" || strIncludes nm "woman")
      match genderVoices.head? with
      | some v => some v
      | none => englishVoices.head?

/-- The per-style/per-gender ElevenLabs voice-ID table (`voices[style]?.[gender]`). -/
def elevenLabsVoiceId (style gender : String) : Option String :=
  if style = "rap" then
    if gender = "male" then some "pNInz6obpgDQGcFmaJgB"
    else if gender = "female" then some "21m00Tcm4TlvDq8ikWAM" else none
  else if style = "pop" then
    if gender = "male" then some "VR6AewLTigWG4xSOukaG"
    else if gender = "female" then some "EXAVITQu4vr4xnSDxMaL" else none
  else if style = "nursery" then
    if gender = "male" then some "CYw3kZ02Hs0563khs1Fj"
    else if gender = "female" then some "XB0fDUnXU5powFXDhCwa" else none
  else if style = "ballad" then
    if gender = "male" then some "onwK4e9ZLuTAKqWW03F9"
    else if gender = "female" then some "oWAxZDx7w5VEj9dCyTzz" else none
  else if style = "country" then
    if gender = "male" then some "bVMeCyTHy58xNoL34h3p"
    else if gender = "female" then some "XrExE9yKIg1WjnnlVkGX" else none
  else none

/-- `AudioGenerator.getElevenLabsVoice`: `voices[style]?.[gender] || voices.pop[gender]`. -/
def getElevenLabsVoice (style gender : String) : Option String :=
  let primary := elevenLabsVoiceId style gender
  if jsTruthyS primary then primary else elevenLabsVoiceId "pop" gender

/-- `AudioGenerator.estimateDuration`: `words / 150` minutes, times 60, over
the rate — where `words` is `text.split(/\s+/).length` (no empty filter). -/
def estimateDuration (text : String) (rate : Float) : Float :=
  let words := (jsSplit jsWhitespace text).length
  Float.ofNat words / 150 * 60 / rate

/-- JS `ToInt32`: reduce an integer modulo `2^32` into `[-2^31, 2^31)`.  This
is what `hash & hash` (and the `<< 5` shift) perform in `hashString`. -/
def toInt32 (x : Int) : Int :=
  let r := x % 4294967296
  if r ≥ 2147483648 then r - 4294967296 else r

/-- One loop iteration of `AudioGenerator.hashString` (audiogenerator.js lines
343–347): `hash = (hash << 5) - hash + char; hash = hash & hash`.  The shift
operates on `ToInt32(hash)` and wraps to 32 bits; the subtraction and addition
are exact; `hash & hash` truncates back to a signed 32-bit integer. -/
def hashStep (hash : Int) (c : Nat) : Int :=
  toInt32 (toInt32 (toInt32 hash * 32) - hash + c)

/-- The integer value computed by `hashString` before `toString`. -/
def hashInt (str : String) : Int :=
  str.data.foldl (fun h c => hashStep h c.toNat) 0

/-- `AudioGenerator.hashString` (audiogenerator.js lines 341–349). -/
def hashString (str : String) : String := toString (hashInt str)

/-- The `options` argument of `generateAudio` (only `gender` is consulted). -/
structure AudioOpts where
  gender : Option String := none
  deriving Repr, DecidableEq

/-- `AudioGenerator.createCacheKey`:
`` `${style}-${options.gender || "default"}-${this.hashString(text)}` ``. -/
def createCacheKey (text style : String) (options : AudioOpts) : String :=
  style ++ "-" ++ jsOrS options.gender "default" ++ "-" ++ hashString text

/-- The result record of the audio backends.  `audioUrl` and `utteranceText`
are the mutually exclusive playable representations (the utterance handle is
abstracted by the text it would speak). -/
structure AudioResult where
  success : Bool
  audioUrl : Option String := none
  utteranceText : Option String := none
  service : String
  voice : Option String := none
  duration : Float
  playDirectly : Bool := false
  deriving Repr

/-- Platform/network environment of the audio generator:
`speechSynthesisAvailable` is `"speechSynthesis" in window`;
`recordedBlobUrl` is the URL of the blob produced when `recordSpeech`
succeeds (`none` = recording fails and the utterance is returned for direct
playback); `voices` is `speechSynthesis.getVoices()`; the API keys come from
chrome storage; `elevenLabsFetch` abstracts the ElevenLabs POST (`.error`
covers both a thrown fetch and a non-ok status). -/
structure AudioEnv where
  speechSynthesisAvailable : Bool
  recordedBlobUrl : Option String
  voices : List Voice
  elevenLabsApiKey : Option String
  googleApiKey : Option String
  azureKey : Option String
  azureRegion : Option String
  elevenLabsFetch : Except String String

/-- `AudioGenerator.generateWithBrowser` (audiogenerator.js lines 50–97): the
returned promise rejects only when speech synthesis is unsupported; both the
recorded-blob path and the recording-failure path resolve successfully. -/
def generateWithBrowser (env : AudioEnv) (text style : String)
    (options : AudioOpts) : Except String AudioResult :=
  if !env.speechSynthesisAvailable then
    .error "Speech synthesis not supported"
  else
    let voiceConfig := getVoiceConfig style
    let selectedVoice := selectVoice env.voices style (options.gender.getD "female")
    match env.recordedBlobUrl with
    | some url =>
      .ok { success := true, audioUrl := some url, service := "browser"
            voice := some (jsOrS (selectedVoice.map Voice.name) "default")
            duration := estimateDuration text voiceConfig.rate }
    | none =>
      .ok { success := true, utteranceText := some text, service := "browser"
            voice := some (jsOrS (selectedVoice.map Voice.name) "default")
            duration := estimateDuration text voiceConfig.rate
            playDirectly := true }

/-- `AudioGenerator.generateWithElevenLabs` (audiogenerator.js lines 100–138):
missing key throws; the POST result (or its failure) comes from the
environment. -/
def generateWithElevenLabs (env : AudioEnv) (text style : String)
    (options : AudioOpts) : Except String AudioResult :=
  if !(jsTruthyS env.elevenLabsApiKey) then
    .error "ElevenLabs API key not configured"
  else
    match env.elevenLabsFetch with
    | .error e => .error e
    | .ok url =>
      .ok { success := true, audioUrl := some url, service := "elevenlabs"
            voice := getElevenLabsVoice style (options.gender.getD "female")
            duration := estimateDuration text 1.0 }

/-- `AudioGenerator.generateWithGoogle` (audiogenerator.js lines 141–178):
after the key check the source calls `this.getGoogleVoiceConfig`, a method
that does not exist in the class, so the call always throws a `TypeError`. -/
def generateWithGoogle (env : AudioEnv) (_text _style : String)
    (_options : AudioOpts) : Except String AudioResult :=
  if !(jsTruthyS env.googleApiKey) then
    .error "Google Cloud API key not configured"
  else
    .error "TypeError: this.getGoogleVoiceConfig is not a function"

/-- `AudioGenerator.generateWithAzure` (audiogenerator.js lines 181–217):
after the config check the source calls `this.getAzureVoiceConfig`, a method
that does not exist in the class, so the call always throws a `TypeError`. -/
def generateWithAzure (env : AudioEnv) (_text _style : String)
    (_options : AudioOpts) : Except String AudioResult :=
  if !(jsTruthyS env.azureKey) || !(jsTruthyS env.azureRegion) then
    .error "Azure TTS configuration not complete"
  else
    .error "TypeError: this.getAzureVoiceConfig is not a function"

/-- `this.maxCacheSize`. -/
def maxCacheSize : Nat := 50

/-- JS `Map.prototype.set` on an insertion-ordered association list: an
existing key keeps its position and gets the new value; a new key is appended. -/
def mapSet (m : List (String × AudioResult)) (k : String) (v : AudioResult) :
    List (String × AudioResult) :=
  if (m.lookup k).isSome then
    m.map (fun e => if e.1 == k then (k, v) else e)
  else m ++ [(k, v)]

/-- `AudioGenerator.cacheAudio` (audiogenerator.js lines 351–357): when the
cache is full, delete the first-inserted key (`keys().next().value`), then
insert. -/
def cacheAudio (cache : List (String × AudioResult)) (key : String)
    (audioResult : AudioResult) : List (String × AudioResult) :=
  let cache1 :=
    if cache.length ≥ maxCacheSize then
      match cache.head? with
      | some first => cache.eraseP (fun e => e.1 == first.1)
      | none => cache
    else cache
  mapSet cache1 key audioResult

/-- The mutable state of an `AudioGenerator` instance. -/
structure AudioState where
  currentService : String := "browser"
  audioCache : List (String × AudioResult) := []

/-- The `switch (this.currentService)` dispatch of `generateAudio`. -/
def dispatchService (env : AudioEnv) (service text style : String)
    (options : AudioOpts) : Except String AudioResult :=
  if service = "elevenlabs" then generateWithElevenLabs env text style options
  else if service = "google" then generateWithGoogle env text style options
  else if service = "azure" then generateWithAzure env text style options
  else generateWithBrowser env text style options

/-- Outcome of one `generateAudio` call: its result, the updated generator
state, and how many backend synthesis calls were performed. -/
structure GenAudioOut where
  result : Except String AudioResult
  state : AudioState
  backendCalls : Nat

/-- `AudioGenerator.generateAudio` (audiogenerator.js lines 12–47): serve from
the cache when possible; otherwise dispatch on the configured service and
cache a successful result; any exception is caught at the top level and the
call is retried once through `generateWithBrowser` (whose own failure
propagates). -/
def generateAudio (env : AudioEnv) (st : AudioState) (text style : String)
    (options : AudioOpts) : GenAudioOut :=
  let cacheKey := createCacheKey text style options
  match st.audioCache.lookup cacheKey with
  | some cached => { result := .ok cached, state := st, backendCalls := 0 }
  | none =>
    match dispatchService env st.currentService text style options with
    | .ok audioResult =>
      { result := .ok audioResult
        state := { st with
          audioCache := cacheAudio st.audioCache cacheKey audioResult }
        backendCalls := 1 }
    | .error _ =>
      { result := generateWithBrowser env text style options
        state := st
        backendCalls := 2 }

end AudioGen

/-! ### Background proxy-relay client (`src/unnamed/part_000`) -/

namespace Background

/-- The `request.data` of a `generateRhyme` message (§6 of the interface:
all fields are strings). -/
structure GenRequest where
  content : String
  style : String
  length : String
  tone : String
  title : String
  customInstructions : String
  deriving Repr, DecidableEq

/-- The JSON body returned by the proxy server
(`{success, rhyme}` or `{error}`). -/
structure ServerBody where
  success : Bool
  rhyme : String
  error : Option String
  deriving Repr, DecidableEq

/-- The fetch `Response` from the proxy server; `body` is the outcome of
`response.json()`. -/
structure FetchResp where
  ok : Bool
  status : Nat
  body : Except String ServerBody
  deriving Repr

/-- Environment of one `handleRhymeGeneration` call: the network outcome
(`.error` = fetch threw) and the current timestamp. -/
structure BgEnv where
  fetch : Except String FetchResp
  now : String

/-- The metadata record built by `handleRhymeGeneration`. -/
structure BgMetadata where
  style : String
  length : String
  tone : String
  wordCount : Nat
  generatedAt : String
  fallback : Bool := false
  deriving Repr, DecidableEq

/-- The result record of `handleRhymeGeneration`. -/
structure BgResult where
  rhyme : String
  metadata : BgMetadata
  audioUrl : Option String
  deriving Repr, DecidableEq

/-- The background script's own `generateFallbackRhyme` (part_000 lines
112–127): the first two sentence fields, trimmed, non-empty ones joined by
`",\n"`, spliced into `fallbacks[style] || fallbacks.default`. -/
def generateFallbackRhyme (content style : String) : String :=
  let keyPoints := (((jsSplit Gemini.sentenceSep content).take 2).map jsTrim).filter
    (fun s => !(s = ""))
  let joined := String.intercalate ",\n" keyPoints
  if style = "rap" then
    "Yo, here" ++ aposS ++ "s the story, let me break it down,\n" ++ joined ++
    "\nThat" ++ aposS ++ "s the info, straight from the ground!"
  else if style = "pop" then
    "🎵 Here" ++ aposS ++ "s what happened, in a catchy way,\n" ++ joined ++
    "\nThat" ++ aposS ++ "s the story of today! 🎵"
  else if style = "nursery" then
    "Once upon a time, here" ++ aposS ++ "s what we learned,\n" ++ joined ++
    "\nAnd that" ++ aposS ++ "s how the story turned!"
  else
    "Here" ++ aposS ++ "s the story in a fun way:\n" ++ joined ++
    "\nThat" ++ aposS ++ "s what happened today!"

/-- The background script's `generateAudio` placeholder (part_000 lines
134–150): always resolves to `null`. -/
def generateAudio (_text _style : String) : Option String := none

/-- The `try` block of `handleRhymeGeneration` (part_000 lines 48–93):
validate the content, POST to the proxy, check `response.ok`, parse and check
`result.success`, and assemble the success record. -/
def rhymeTryBlock (env : BgEnv) (data : GenRequest) : Except String BgResult :=
  if data.content = "" || (jsTrim data.content).length < 10 then
    .error "Content is too short to transform"
  else
    match env.fetch with
    | .error e => .error e
    | .ok resp =>
      if !resp.ok then
        .error (match resp.body with
          | .ok b => jsOrS b.error ("Server error: " ++ toString resp.status)
          | .error _ => "Server error: " ++ toString resp.status)
      else
        match resp.body with
        | .error e => .error e
        | .ok result =>
          if !result.success then
            .error (jsOrS result.error "Failed to generate rhyme")
          else
            .ok { rhyme := result.rhyme
                  metadata :=
                    { style := data.style, length := data.length
                      tone := data.tone
                      wordCount := countWords result.rhyme
                      generatedAt := env.now }
                  audioUrl := generateAudio result.rhyme data.style }

/-- The `catch` branch of `handleRhymeGeneration` (part_000 lines 94–109). -/
def fallbackResult (env : BgEnv) (data : GenRequest) : BgResult :=
  { rhyme := generateFallbackRhyme data.content data.style
    metadata :=
      { style := data.style, length := data.length, tone := data.tone
        wordCount := 20, generatedAt := env.now, fallback := true }
    audioUrl := none }

/-- `handleRhymeGeneration` (part_000 lines 47–110). -/
def handleRhymeGeneration (env : BgEnv) (data : GenRequest) : BgResult :=
  match rhymeTryBlock env data with
  | .ok r => r
  | .error _ => fallbackResult env data

end Background

/-! ### Popup history store (`src/popup.js`) -/

namespace Popup

/-- A history entry as built by `saveToHistory` (the fields are opaque to the
list-capping logic). -/
structure HistoryItem where
  id : Nat
  rhyme : String
  title : String
  url : String
  generationTime : Nat
  createdAt : String
  deriving Repr, DecidableEq

/-- The popup settings consulted by `saveToHistory` (`this.settings.maxHistory`). -/
structure PopupSettings where
  maxHistory : Option Nat := none
  deriving Repr, DecidableEq

/-- The list update of `RhymeTimePopup.saveToHistory` (popup.js lines
345–367): `unshift` the new item, then cap the list at
`this.settings.maxHistory || 25` keeping the newest entries.  (Building the
item from `rhymeData` and persisting to storage are outside the model.) -/
def saveToHistory (settings : PopupSettings) (history : List HistoryItem)
    (item : HistoryItem) : List HistoryItem :=
  let h := item :: history
  let maxHistory := jsOrNat settings.maxHistory 25
  if h.length > maxHistory then h.take maxHistory else h

end Popup

/-! ### Statement vocabulary and concrete fixtures -/

/-- `t` occurs as a contiguous substring of `s`. -/
def strContains (s t : String) : Prop := t.data <:+: s.data

/-- The style enum of the data model. -/
def stylesEnum : List String := ["rap", "pop", "nursery", "ballad", "country"]

/-- The length enum of the data model. -/
def lengthsEnum : List String := ["short", "medium", "long"]

/-- The tone enum of the data model. -/
def tonesEnum : List String := ["fun", "educational", "humorous", "dramatic", "chill"]

/-- The content string used by the spec's end-to-end scenario. -/
def demoContent : String :=
  "The quick brown fox jumps over the lazy dog. It was a sunny day."

/-- A page on which the first extraction strategy succeeds. -/
def pageOk : ContentExtractor.PageState :=
  { extractByStructure := .ok (some "An article about foxes and sunny days.")
    extractByReadability := .ok none
    extractByTextDensity := .ok none
    extractFallback := .ok ""
    titleRaw := "Fox Page"
    url := "https://example.com/fox"
    now := "2026-01-01T00:00:00Z" }

/-- A page on which the first extraction strategy throws. -/
def pageErr : ContentExtractor.PageState :=
  { extractByStructure := .error "boom"
    extractByReadability := .ok none
    extractByTextDensity := .ok none
    extractFallback := .ok ""
    titleRaw := ""
    url := "https://example.com/broken"
    now := "2026-01-01T00:00:00Z" }

/-- A Gemini environment whose backend fails on attempts 1 and 2 and succeeds
on attempt 3. -/
def failTwiceEnv : Gemini.GenEnv :=
  { apiKey := some "test-api-key-0123456789"
    backend := fun _ _ attempt =>
      if attempt ≥ 3 then
        .ok { ok := true, status := 200, errorMessage := none,
              candidatesText := some "a catchy song" }
      else .error "network error"
    now := "2026-01-01T00:00:00Z" }

/-- A Gemini environment whose backend fails on every attempt. -/
def alwaysFailEnv : Gemini.GenEnv :=
  { apiKey := some "test-api-key-0123456789"
    backend := fun _ _ _ => .error "network error"
    now := "2026-01-01T00:00:00Z" }

/-- A Gemini environment whose backend returns a response with a
`"Here is ...:"` preamble that `cleanResponse` strips. -/
def preambleEnv : Gemini.GenEnv :=
  { apiKey := some "test-api-key-0123456789"
    backend := fun _ _ _ =>
      .ok { ok := true, status := 200, errorMessage := none,
            candidatesText := some "Here is a song:\nHello world" }
    now := "2026-01-01T00:00:00Z" }

/-- The prompt built for the end-to-end scenario. -/
def demoPrompt : String :=
  (Gemini.createPrompt demoContent "pop" "medium" "fun" "" "").getD ""

/-- An audio environment where local synthesis works and records a blob. -/
def audioEnvOk : AudioGen.AudioEnv :=
  { speechSynthesisAvailable := true
    recordedBlobUrl := some "blob:rec"
    voices := []
    elevenLabsApiKey := none
    googleApiKey := none
    azureKey := none
    azureRegion := none
    elevenLabsFetch := .error "no network" }

/-- An audio environment with no speech synthesis support at all. -/
def audioEnvNoSpeech : AudioGen.AudioEnv :=
  { speechSynthesisAvailable := false
    recordedBlobUrl := none
    voices := []
    elevenLabsApiKey := none
    googleApiKey := none
    azureKey := none
    azureRegion := none
    elevenLabsFetch := .error "no network" }

/-- A fresh generator state (browser service, empty cache). -/
def audioStateEmpty : AudioGen.AudioState := {}

/-- A generator state configured for the google service. -/
def audioStateGoogle : AudioGen.AudioState := { currentService := "google" }

/-- A stub cached audio value. -/
def audioResultStub : AudioGen.AudioResult :=
  { success := true, service := "browser", duration := 0.0 }

/-- The `i`-th entry of a synthetic full cache. -/
def cacheEntry (i : Nat) : String × AudioGen.AudioResult :=
  (toString i, audioResultStub)

/-- 49 further entries behind `cacheEntry 0`. -/
def tailCache : List (String × AudioGen.AudioResult) :=
  (List.range 49).map (fun i => cacheEntry (i + 1))

/-- Popup settings with `maxHistory = 25`. -/
def settings25 : Popup.PopupSettings := { maxHistory := some 25 }

/-- A synthetic history item. -/
def histItem (i : Nat) : Popup.HistoryItem :=
  { id := i, rhyme := "", title := "", url := "", generationTime := 0, createdAt := "" }

/-- A background environment whose fetch throws. -/
def bgEnvFail : Background.BgEnv :=
  { fetch := .error "network down", now := "2026-01-01T00:00:00Z" }

/-- A well-formed generation request. -/
def bgReq : Background.GenRequest :=
  { content := demoContent, style := "pop", length := "medium", tone := "fun"
    title := "Foxes", customInstructions := "" }

/-- The rolling hash as the spec words it (`hash = hash*31 + charCode` over
the character codes), for comparison with the code's `hashStep`-based value. -/
def specRollHash (s : String) : Int :=
  s.data.foldl (fun h c => 31 * h + (c.toNat : Int)) 0

/-- The audio result produced by the browser backend in `audioEnvOk` for the
text `"hello"` and style `"pop"`. -/
def browserStubResult : AudioGen.AudioResult :=
  { success := true
    audioUrl := some "blob:rec"
    utteranceText := none
    service := "browser"
    voice := some "default"
    duration := AudioGen.estimateDuration "hello" (AudioGen.getVoiceConfig "pop").rate
    playDirectly := false }

/-! ### Helper lemmas -/

theorem infHere (t b : List Char) : t <:+: t ++ b := ⟨[], b, by simp⟩

theorem infStep (a : List Char) {l t : List Char} (h : t <:+: l) :
    t <:+: a ++ l := by
  obtain ⟨u, v, huv⟩ := h
  exact ⟨a ++ u, v, by simp [← huv]⟩

theorem jsTrimL_length_le (l : List Char) : (jsTrimL l).length ≤ l.length := by
  unfold jsTrimL
  simp only [List.length_reverse]
  refine le_trans (List.dropWhile_sublist _).length_le ?_
  simp only [List.length_reverse]
  exact (List.dropWhile_sublist _).length_le

theorem cleanContent_length_le (s : String) :
    (ContentExtractor.cleanContent s).length ≤ 3003 := by
  unfold ContentExtractor.cleanContent
  split
  · simp
  · simp only [String.length_mk]
    refine le_trans (jsTrimL_length_le _) ?_
    split
    · simp only [List.length_append, List.length_take, List.length_cons,
        List.length_nil]
      omega
    · omega

/-- C1: for every page state, `extractContent` returns a record whose content
has length at most 3003 (3000 plus the 3-character ellipsis marker) and never
throws; on an internal exception it returns the degraded placeholder string. -/
theorem extractContent_safe (p : ContentExtractor.PageState) :
    (ContentExtractor.extractContent p).content.length ≤ 3003 ∧
    (∀ e, ContentExtractor.extractionChain p = .error e →
      (ContentExtractor.extractContent p).content =
        "Unable to extract content from this page.") := by
  constructor
  · cases h : ContentExtractor.extractionChain p with
    | ok raw =>
      simpa [ContentExtractor.extractContent, h] using cleanContent_length_le raw
    | error e =>
      simp [ContentExtractor.extractContent, h]
      decide
  · intro e he
    simp [ContentExtractor.extractContent, he]

/-- Witness for C1 at two concrete pages. -/
theorem extractContent_safe_witness :
    (ContentExtractor.extractContent pageOk).content.length ≤ 3003 ∧
    (ContentExtractor.extractContent pageErr).content =
      "Unable to extract content from this page." :=
  ⟨(extractContent_safe pageOk).1, (extractContent_safe pageErr).2 "boom" rfl⟩

theorem takeAbsorb {α : Type} (x y : List α) (n : Nat) :
    (x ++ y.take n).take n = (x ++ y).take n := by
  rw [List.take_append_eq_append_take, List.take_append_eq_append_take,
    List.take_take]
  simp [Nat.min_def]

theorem save25_eq (h : List Popup.HistoryItem) (item : Popup.HistoryItem) :
    Popup.saveToHistory settings25 h item = (item :: h).take 25 := by
  show (if (item :: h).length > jsOrNat settings25.maxHistory 25 then
      (item :: h).take (jsOrNat settings25.maxHistory 25) else (item :: h)) = _
  have h25 : jsOrNat settings25.maxHistory 25 = 25 := rfl
  rw [h25]
  split
  · rfl
  · rename_i hgt
    rw [List.take_of_length_le (by omega)]

theorem foldSave (l : List Popup.HistoryItem) (h0 : List Popup.HistoryItem)
    (hlen : h0.length ≤ 25) :
    l.foldl (fun h item => Popup.saveToHistory settings25 h item) h0 =
      (l.reverse ++ h0).take 25 := by
  have hfun : (fun h item => Popup.saveToHistory settings25 h item) =
      (fun (h : List Popup.HistoryItem) item => (item :: h).take 25) := by
    funext h item
    exact save25_eq h item
  rw [hfun]
  induction l generalizing h0 with
  | nil => simp [List.take_of_length_le hlen]
  | cons a l ih =>
    simp only [List.foldl_cons, List.reverse_cons]
    rw [ih ((a :: h0).take 25) (by simp only [List.length_take]; omega)]
    rw [takeAbsorb]
    simp

/-- C5: the history list length is at most `maxHistory` after every insert,
with the oldest entries evicted first: saving 26 items with `maxHistory = 25`
leaves exactly 25 items, the 26th (newest) item is at the head, and the first
(oldest) item is gone. -/
theorem saveToHistory_cap (f : Nat → Popup.HistoryItem)
    (hinj : ∀ i, i < 26 → f i = f 0 → i = 0) :
    (((List.range 26).map f).foldl
        (fun h item => Popup.saveToHistory settings25 h item) []).length = 25 ∧
    (((List.range 26).map f).foldl
        (fun h item => Popup.saveToHistory settings25 h item) []).head? =
      some (f 25) ∧
    f 0 ∉ ((List.range 26).map f).foldl
        (fun h item => Popup.saveToHistory settings25 h item) [] := by
  have hfold := foldSave ((List.range 26).map f) [] (by simp)
  have hR : (List.range 26).reverse.take 25 = (List.range' 1 25).reverse := by
    decide
  have hfinal : ((List.range 26).map f).foldl
      (fun h item => Popup.saveToHistory settings25 h item) [] =
      ((List.range' 1 25).reverse).map f := by
    rw [hfold]
    rw [List.append_nil, ← List.map_reverse, ← List.map_take, hR]
  refine ⟨?_, ?_, ?_⟩
  · rw [hfinal]; simp
  · rw [hfinal, List.head?_map]
    have h25 : (List.range' 1 25).reverse.head? = some 25 := by decide
    rw [h25]
    rfl
  · rw [hfinal]
    intro hmem
    obtain ⟨i, hi, hfi⟩ := List.mem_map.mp hmem
    rw [List.mem_reverse, List.mem_range'_1] at hi
    have := hinj i (by omega) hfi
    omega

/-- Witness for C5 at a concrete family of 26 distinct items. -/
theorem saveToHistory_cap_witness :
    (((List.range 26).map histItem).foldl
        (fun h item => Popup.saveToHistory settings25 h item) []).length = 25 ∧
    (((List.range 26).map histItem).foldl
        (fun h item => Popup.saveToHistory settings25 h item) []).head? =
      some (histItem 25) ∧
    histItem 0 ∉ ((List.range 26).map histItem).foldl
        (fun h item => Popup.saveToHistory settings25 h item) [] :=
  saveToHistory_cap histItem (by decide)

/-- C7: the locally synthesized fallback rhyme splices the first sentences of
the raw input (trimmed length > 10) into the fixed per-style template, with no
external call; for style pop and the scenario input, the two extracted
sentences appear in the pop template joined by `",\n"`; an unknown style falls
back to the pop template. -/
theorem generateFallbackRhyme_template :
    (∀ c : String, Gemini.generateFallbackRhyme c "pop" =
      "Here" ++ aposS ++ "s a story that you need to know,\n" ++
      String.intercalate ",\n" (Gemini.extractKeyPoints c 2) ++
      "\nNow you" ++ aposS ++ "ve heard it, now you know!") ∧
    Gemini.extractKeyPoints demoContent 2 =
      ["The quick brown fox jumps over the lazy dog", "It was a sunny day"] ∧
    Gemini.generateFallbackRhyme demoContent "pop" =
      "Here" ++ aposS ++ "s a story that you need to know,\n" ++
      "The quick brown fox jumps over the lazy dog" ++ ",\n" ++
      "It was a sunny day" ++
      "\nNow you" ++ aposS ++ "ve heard it, now you know!" ∧
    Gemini.generateFallbackRhyme demoContent "jazz" =
      Gemini.generateFallbackRhyme demoContent "pop" := by
  refine ⟨fun c => rfl, by decide, by decide, rfl⟩

theorem toInt32_modeq (x : Int) :
    Int.ModEq 4294967296 (AudioGen.toInt32 x) x := by
  have h1 : Int.ModEq 4294967296 (x % 4294967296) x := by
    unfold Int.ModEq
    exact Int.emod_emod_of_dvd x dvd_rfl
  show (if x % 4294967296 ≥ 2147483648 then x % 4294967296 - 4294967296
    else x % 4294967296) ≡ x [ZMOD 4294967296]
  split
  · refine Int.ModEq.trans ?_ h1
    unfold Int.ModEq
    exact Int.emod_sub_cancel _ _
  · exact h1

theorem hashStep_modeq (h : Int) (c : Nat) :
    Int.ModEq 4294967296 (AudioGen.hashStep h c) (31 * h + c) := by
  unfold AudioGen.hashStep
  refine (toInt32_modeq _).trans ?_
  have step2 : Int.ModEq 4294967296
      (AudioGen.toInt32 (AudioGen.toInt32 h * 32) - h + c) (h * 32 - h + c) :=
    Int.ModEq.add_right _ (Int.ModEq.sub_right _
      ((toInt32_modeq _).trans (Int.ModEq.mul_right 32 (toInt32_modeq h))))
  refine step2.trans ?_
  have harith : h * 32 - h + (c : Int) = 31 * h + c := by ring
  rw [harith]

theorem foldHash_modeq (l : List Nat) (h1 h2 : Int)
    (hmod : Int.ModEq 4294967296 h1 h2) :
    Int.ModEq 4294967296 (l.foldl (fun h c => AudioGen.hashStep h c) h1)
      (l.foldl (fun (h : Int) (c : Nat) => 31 * h + c) h2) := by
  induction l generalizing h1 h2 with
  | nil => exact hmod
  | cons c l ih =>
    simp only [List.foldl_cons]
    exact ih _ _ ((hashStep_modeq h1 c).trans
      (Int.ModEq.add_right _ (Int.ModEq.mul_left 31 hmod)))

/-- C8: the audio-cache key is `style ++ "-" ++ (gender or "default") ++ "-"`
followed by the hash of the text, and the code's
`(hash << 5) - hash + char` step with 32-bit masking is congruent to
`hash * 31 + charCode` modulo `2^32` — both per step and for the whole
rolling hash. -/
theorem hashString_key (s : String) :
    Int.ModEq 4294967296 (AudioGen.hashInt s) (specRollHash s) ∧
    (∀ (h : Int) (c : Nat),
      Int.ModEq 4294967296 (AudioGen.hashStep h c) (31 * h + c)) ∧
    (∀ (text style : String) (options : AudioGen.AudioOpts),
      AudioGen.createCacheKey text style options =
        style ++ "-" ++ jsOrS options.gender "default" ++ "-" ++
          AudioGen.hashString text) := by
  refine ⟨?_, hashStep_modeq, fun _ _ _ => rfl⟩
  unfold AudioGen.hashInt specRollHash
  have hfold := foldHash_modeq (s.data.map Char.toNat) 0 0 (Int.ModEq.refl 0)
  simpa [List.foldl_map] using hfold

theorem append_ne_empty_left (a b : String) (ha : a ≠ "") : a ++ b ≠ "" := by
  intro h
  have hdata := congrArg String.data h
  rw [String.data_append] at hdata
  have hnil : a.data = [] := (List.append_eq_nil.mp (by simpa using hdata)).1
  exact ha (String.ext (show a.data = "".data from hnil))

theorem bgFallback_ne (content style : String) :
    Background.generateFallbackRhyme content style ≠ "" := by
  unfold Background.generateFallbackRhyme
  split
  · repeat (first | decide | apply append_ne_empty_left)
  · split
    · repeat (first | decide | apply append_ne_empty_left)
    · split
      · repeat (first | decide | apply append_ne_empty_left)
      · repeat (first | decide | apply append_ne_empty_left)

/-- C9: the proxy-relay client `handleRhymeGeneration` always returns a
record carrying a rhyme, and never a bare error: on success the try-block
record, and on any caught failure the locally templated fallback rhyme
(always non-empty) with `fallback:true` metadata. -/
theorem handleRhymeGeneration_total (env : Background.BgEnv)
    (data : Background.GenRequest) :
    (∀ r, Background.rhymeTryBlock env data = .ok r →
      Background.handleRhymeGeneration env data = r) ∧
    (∀ e, Background.rhymeTryBlock env data = .error e →
      Background.handleRhymeGeneration env data =
        Background.fallbackResult env data ∧
      (Background.handleRhymeGeneration env data).metadata.fallback = true ∧
      (Background.handleRhymeGeneration env data).rhyme ≠ "") ∧
    Background.generateFallbackRhyme data.content data.style ≠ "" := by
  refine ⟨?_, ?_, bgFallback_ne _ _⟩
  · intro r hr
    simp [Background.handleRhymeGeneration, hr]
  · intro e he
    refine ⟨by simp [Background.handleRhymeGeneration, he], ?_, ?_⟩
    · simp [Background.handleRhymeGeneration, he, Background.fallbackResult]
    · simp only [Background.handleRhymeGeneration, he,
        Background.fallbackResult]
      exact bgFallback_ne _ _

/-- Witness for C9 at a concrete request and a failing network. -/
theorem handleRhymeGeneration_total_witness :
    Background.handleRhymeGeneration bgEnvFail bgReq =
      Background.fallbackResult bgEnvFail bgReq ∧
    (Background.handleRhymeGeneration bgEnvFail bgReq).metadata.fallback = true ∧
    (Background.handleRhymeGeneration bgEnvFail bgReq).rhyme ≠ "" :=
  (handleRhymeGeneration_total bgEnvFail bgReq).2.1 "network down" rfl

theorem callGemini_attempts_le (env : Gemini.GenEnv) (p k : String) :
    ∀ (remaining attempt : Nat),
      (Gemini.callGeminiGo env p k attempt remaining).attempts.length ≤
        remaining + 1 := by
  intro remaining
  induction remaining with
  | zero =>
    intro attempt
    unfold Gemini.callGeminiGo
    cases h : Gemini.attemptOnce env p k attempt <;> simp
  | succ n ih =>
    intro attempt
    unfold Gemini.callGeminiGo
    cases h : Gemini.attemptOnce env p k attempt with
    | ok t => simp
    | error e =>
      simp only [List.length_cons]
      have := ih (attempt + 1)
      omega

theorem geminiFallback_ne (content style : String) :
    Gemini.generateFallbackRhyme content style ≠ "" := by
  unfold Gemini.generateFallbackRhyme
  repeat (first | apply append_ne_empty_left | decide | split)

theorem callGemini_failTwice (env : Gemini.GenEnv) (p k : String)
    (e1 e2 t : String)
    (h1 : Gemini.attemptOnce env p k 1 = .error e1)
    (h2 : Gemini.attemptOnce env p k 2 = .error e2)
    (h3 : Gemini.attemptOnce env p k 3 = .ok t) :
    Gemini.callGeminiAPI env p k 1 =
      { result := .ok t, attempts := [1, 2, 3], delays := [1000, 2000] } := by
  show Gemini.callGeminiGo env p k 1 2 = _
  simp [Gemini.callGeminiGo, h1, h2, h3, Gemini.retryDelay]

theorem callGemini_failThrice (env : Gemini.GenEnv) (p k : String)
    (e1 e2 e3 : String)
    (h1 : Gemini.attemptOnce env p k 1 = .error e1)
    (h2 : Gemini.attemptOnce env p k 2 = .error e2)
    (h3 : Gemini.attemptOnce env p k 3 = .error e3) :
    Gemini.callGeminiAPI env p k 1 =
      { result := .error e3, attempts := [1, 2, 3], delays := [1000, 2000] } := by
  show Gemini.callGeminiGo env p k 1 2 = _
  simp [Gemini.callGeminiGo, h1, h2, h3, Gemini.retryDelay]

theorem transformToRhyme_eq (env : Gemini.GenEnv) (content : String)
    (opts : Gemini.RhymeOptions) (k p : String)
    (hkey : env.apiKey = some k) (hk : k ≠ "")
    (hprompt : Gemini.createPrompt content opts.style opts.length opts.tone
      opts.title opts.customInstructions = some p) :
    Gemini.transformToRhyme env content opts =
      (match (Gemini.callGeminiAPI env p k 1).result with
       | .ok response =>
         { success := true
           rhyme := some (Gemini.cleanResponse response)
           metadata := some
             { style := opts.style, length := opts.length, tone := opts.tone
               wordCount := countWords response, generatedAt := env.now } }
       | .error e =>
         { success := false
           error := some e
           fallback := some (Gemini.generateFallbackRhyme content opts.style) }) := by
  unfold Gemini.transformToRhyme
  rw [hkey, hprompt]
  simp [jsTruthyS, hk, Except.bind]

/-- C2: the retry loop makes at most 3 attempts with linear backoff
`attempt * 1000ms`; a backend failing on attempts 1 and 2 and succeeding on
attempt 3 yields `success:true`; a backend failing on all three attempts
yields `success:false` with the (always non-empty) local fallback string. -/
theorem transformToRhyme_retry (env : Gemini.GenEnv) (content : String)
    (opts : Gemini.RhymeOptions) (k p : String)
    (hkey : env.apiKey = some k) (hk : k ≠ "")
    (hprompt : Gemini.createPrompt content opts.style opts.length opts.tone
      opts.title opts.customInstructions = some p) :
    (Gemini.callGeminiAPI env p k 1).attempts.length ≤ 3 ∧
    (∀ e1 e2 t, Gemini.attemptOnce env p k 1 = .error e1 →
      Gemini.attemptOnce env p k 2 = .error e2 →
      Gemini.attemptOnce env p k 3 = .ok t →
      (Gemini.transformToRhyme env content opts).success = true ∧
      (Gemini.callGeminiAPI env p k 1).attempts = [1, 2, 3] ∧
      (Gemini.callGeminiAPI env p k 1).delays = [1000, 2000]) ∧
    (∀ e1 e2 e3, Gemini.attemptOnce env p k 1 = .error e1 →
      Gemini.attemptOnce env p k 2 = .error e2 →
      Gemini.attemptOnce env p k 3 = .error e3 →
      (Gemini.transformToRhyme env content opts).success = false ∧
      (Gemini.transformToRhyme env content opts).fallback =
        some (Gemini.generateFallbackRhyme content opts.style) ∧
      Gemini.generateFallbackRhyme content opts.style ≠ "" ∧
      (Gemini.callGeminiAPI env p k 1).attempts = [1, 2, 3] ∧
      (Gemini.callGeminiAPI env p k 1).delays = [1000, 2000]) := by
  refine ⟨callGemini_attempts_le env p k 2 1, ?_, ?_⟩
  · intro e1 e2 t h1 h2 h3
    have hgo := callGemini_failTwice env p k e1 e2 t h1 h2 h3
    rw [transformToRhyme_eq env content opts k p hkey hk hprompt, hgo]
    exact ⟨rfl, rfl, rfl⟩
  · intro e1 e2 e3 h1 h2 h3
    have hgo := callGemini_failThrice env p k e1 e2 e3 h1 h2 h3
    rw [transformToRhyme_eq env content opts k p hkey hk hprompt, hgo]
    exact ⟨rfl, rfl, geminiFallback_ne content opts.style, rfl, rfl⟩

/-- Witness for C2 at concrete fail-twice and fail-thrice backends. -/
theorem transformToRhyme_retry_witness :
    (Gemini.transformToRhyme failTwiceEnv demoContent {}).success = true ∧
    (Gemini.transformToRhyme alwaysFailEnv demoContent {}).success = false ∧
    (Gemini.transformToRhyme alwaysFailEnv demoContent {}).fallback =
      some (Gemini.generateFallbackRhyme demoContent "pop") ∧
    Gemini.generateFallbackRhyme demoContent "pop" ≠ "" ∧
    (Gemini.callGeminiAPI alwaysFailEnv demoPrompt "test-api-key-0123456789"
      1).delays = [1000, 2000] := by
  have hA := (transformToRhyme_retry failTwiceEnv demoContent {}
    "test-api-key-0123456789" demoPrompt rfl (by decide) rfl).2.1
    "network error" "network error" "a catchy song" rfl rfl rfl
  have hB := (transformToRhyme_retry alwaysFailEnv demoContent {}
    "test-api-key-0123456789" demoPrompt rfl (by decide) rfl).2.2
    "network error" "network error" "network error" rfl rfl rfl
  exact ⟨hA.1, hB.1, hB.2.1, hB.2.2.1, hB.2.2.2.2⟩

/-- C10: on every successful transform, `metadata.wordCount` is the
whitespace-token count of the raw API response, while the returned rhyme is
the cleaned response — and for a response with a stripped `"Here is ...:"`
preamble the two word counts differ (6 vs 2). -/
theorem wordCount_raw (env : Gemini.GenEnv) (content : String)
    (opts : Gemini.RhymeOptions) (k p : String)
    (hkey : env.apiKey = some k) (hk : k ≠ "")
    (hprompt : Gemini.createPrompt content opts.style opts.length opts.tone
      opts.title opts.customInstructions = some p) :
    (∀ t, (Gemini.callGeminiAPI env p k 1).result = .ok t →
      (Gemini.transformToRhyme env content opts).metadata =
        some { style := opts.style, length := opts.length, tone := opts.tone
               wordCount := countWords t, generatedAt := env.now } ∧
      (Gemini.transformToRhyme env content opts).rhyme =
        some (Gemini.cleanResponse t)) ∧
    ((Gemini.transformToRhyme preambleEnv demoContent {}).metadata.map
        Gemini.RhymeMetadata.wordCount = some 6 ∧
      (Gemini.transformToRhyme preambleEnv demoContent {}).rhyme.map
        countWords = some 2 ∧
      countWords "Here is a song:\nHello world" = 6 ∧
      countWords (Gemini.cleanResponse "Here is a song:\nHello world") = 2) := by
  constructor
  · intro t ht
    rw [transformToRhyme_eq env content opts k p hkey hk hprompt, ht]
    exact ⟨rfl, rfl⟩
  · exact ⟨rfl, rfl, rfl, rfl⟩

/-- Witness for C10 at the concrete preamble-response backend. -/
theorem wordCount_raw_witness :
    (Gemini.transformToRhyme preambleEnv demoContent {}).metadata =
      some { style := "pop", length := "medium", tone := "fun"
             wordCount := countWords "Here is a song:\nHello world"
             generatedAt := "2026-01-01T00:00:00Z" } ∧
    (Gemini.transformToRhyme preambleEnv demoContent {}).rhyme =
      some (Gemini.cleanResponse "Here is a song:\nHello world") :=
  (wordCount_raw preambleEnv demoContent {} "test-api-key-0123456789"
    demoPrompt rfl (by decide) rfl).1 "Here is a song:\nHello world" rfl

theorem infLast (a t : List Char) : t <:+: a ++ t := ⟨a, [], by simp⟩

theorem infStepR (b : List Char) {l t : List Char} (h : t <:+: l) :
    t <:+: l ++ b := by
  obtain ⟨u, v, huv⟩ := h
  exact ⟨u, v ++ b, by simp [← huv]⟩

theorem strContains_last (a t : String) : strContains (a ++ t) t := by
  unfold strContains
  rw [String.data_append]
  exact infLast a.data t.data

theorem strContains_snoc (b : String) {s t : String} (h : strContains s t) :
    strContains (s ++ b) t := by
  unfold strContains at h ⊢
  rw [String.data_append]
  exact infStepR b.data h

theorem strContains_expand {s t u : String} (h : strContains s t)
    (hsub : u.data <:+: t.data) : strContains s u := hsub.trans h

set_option maxHeartbeats 1600000 in
theorem promptText_props (content : String) (guide : Gemini.StyleGuide)
    (spec : Gemini.LengthSpec) (style toneDesc title custom : String) :
    Gemini.promptText content guide spec style toneDesc title custom ≠ "" ∧
    strContains (Gemini.promptText content guide spec style toneDesc title
      custom) toneDesc ∧
    strContains (Gemini.promptText content guide spec style toneDesc title
      custom) guide.examples ∧
    strContains (Gemini.promptText content guide spec style toneDesc title
      custom) guide.rhythm ∧
    strContains (Gemini.promptText content guide spec style toneDesc title
      custom) guide.rhymeScheme := by
  unfold Gemini.promptText
  refine ⟨?_, ?_, ?_, ?_, ?_⟩
  · intro h
    have hlen := congrArg String.length h
    simp only [String.length_append] at hlen
    rw [show ("Transform the following content into a " : String).length = 39
      by decide] at hlen
    simp only [String.length_empty] at hlen
    omega
  · iterate 3 (apply strContains_snoc)
    exact strContains_last _ _
  · iterate 19 (apply strContains_snoc)
    exact strContains_last _ _
  · iterate 17 (apply strContains_snoc)
    exact strContains_last _ _
  · iterate 15 (apply strContains_snoc)
    exact strContains_last _ _

set_option maxHeartbeats 800000 in
/-- C6: for every (style, length, tone) drawn from the defined enums,
`createPrompt` produces a non-empty prompt containing the tone adjective and
the style's example-artist text; for style pop the prompt contains
`"catchy, upbeat tempo"` and `"ABAB or AABA"`. -/
theorem createPrompt_props (content title custom style length tone : String)
    (hs : style ∈ stylesEnum) (hl : length ∈ lengthsEnum)
    (ht : tone ∈ tonesEnum) :
    (Gemini.createPrompt content style length tone title custom).isSome =
      true ∧
    (Gemini.createPrompt content style length tone title custom).getD "" ≠
      "" ∧
    strContains
      ((Gemini.createPrompt content style length tone title custom).getD "")
      ((Gemini.toneAdjectives tone).getD "") ∧
    strContains
      ((Gemini.createPrompt content style length tone title custom).getD "")
      (((Gemini.styleGuides style).map Gemini.StyleGuide.examples).getD "") ∧
    (style = "pop" →
      strContains
        ((Gemini.createPrompt content style length tone title custom).getD "")
        "catchy, upbeat tempo" ∧
      strContains
        ((Gemini.createPrompt content style length tone title custom).getD "")
        "ABAB or AABA") := by
  have hguide : ∃ g, Gemini.styleGuides style = some g := by
    simp only [stylesEnum, List.mem_cons, List.not_mem_nil, or_false] at hs
    rcases hs with rfl | rfl | rfl | rfl | rfl <;> exact ⟨_, rfl⟩
  have hspec : ∃ sp, Gemini.lengthSpecs length = some sp := by
    simp only [lengthsEnum, List.mem_cons, List.not_mem_nil, or_false] at hl
    rcases hl with rfl | rfl | rfl <;> exact ⟨_, rfl⟩
  have htone : ∃ adj, Gemini.toneAdjectives tone = some adj := by
    simp only [tonesEnum, List.mem_cons, List.not_mem_nil, or_false] at ht
    rcases ht with rfl | rfl | rfl | rfl | rfl <;> exact ⟨_, rfl⟩
  obtain ⟨g, hg⟩ := hguide
  obtain ⟨sp, hsp⟩ := hspec
  obtain ⟨adj, hadj⟩ := htone
  have hcp : Gemini.createPrompt content style length tone title custom =
      some (Gemini.promptText content g sp style adj title custom) := by
    unfold Gemini.createPrompt
    rw [hg, hsp, hadj]
    rfl
  have hprops := promptText_props content g sp style adj title custom
  refine ⟨by rw [hcp]; rfl, ?_, ?_, ?_, ?_⟩
  · rw [hcp]
    exact hprops.1
  · rw [hcp, hadj]
    exact hprops.2.1
  · rw [hcp, hg]
    exact hprops.2.2.1
  · intro hpop
    subst hpop
    have hcp2 : Gemini.createPrompt content "pop" length tone title custom =
        some (Gemini.promptText content
          { rhythm := "catchy, upbeat tempo"
            rhymeScheme := "ABAB or AABA with memorable hooks"
            language := "accessible, melodic, radio-friendly"
            struct := "verse-chorus structure with hooks"
            examples := "like Taylor Swift, Ed Sheeran, or Dua Lipa" }
          sp "pop" adj title custom) := by
      unfold Gemini.createPrompt
      rw [hsp, hadj]
      rfl
    have hpropsPop := promptText_props content
      { rhythm := "catchy, upbeat tempo"
        rhymeScheme := "ABAB or AABA with memorable hooks"
        language := "accessible, melodic, radio-friendly"
        struct := "verse-chorus structure with hooks"
        examples := "like Taylor Swift, Ed Sheeran, or Dua Lipa" }
      sp "pop" adj title custom
    constructor
    · rw [hcp2]
      exact hpropsPop.2.2.2.1
    · rw [hcp2]
      refine strContains_expand hpropsPop.2.2.2.2 ?_
      exact ⟨[], " with memorable hooks".data, by decide⟩

/-- Witness for C6 at the end-to-end scenario inputs. -/
theorem createPrompt_props_witness :
    (Gemini.createPrompt demoContent "pop" "medium" "fun" "Foxes" "").isSome =
      true ∧
    (Gemini.createPrompt demoContent "pop" "medium" "fun" "Foxes" "").getD ""
      ≠ "" ∧
    strContains
      ((Gemini.createPrompt demoContent "pop" "medium" "fun" "Foxes" "").getD
        "") ((Gemini.toneAdjectives "fun").getD "") ∧
    strContains
      ((Gemini.createPrompt demoContent "pop" "medium" "fun" "Foxes" "").getD
        "") (((Gemini.styleGuides "pop").map Gemini.StyleGuide.examples).getD
        "") ∧
    (strContains
      ((Gemini.createPrompt demoContent "pop" "medium" "fun" "Foxes" "").getD
        "") "catchy, upbeat tempo" ∧
     strContains
      ((Gemini.createPrompt demoContent "pop" "medium" "fun" "Foxes" "").getD
        "") "ABAB or AABA") := by
  have h := createPrompt_props demoContent "Foxes" "" "pop" "medium" "fun"
    (by decide) (by decide) (by decide)
  exact ⟨h.1, h.2.1, h.2.2.1, h.2.2.2.1, h.2.2.2.2 rfl⟩

theorem browser_total (env : AudioGen.AudioEnv) (text style : String)
    (options : AudioGen.AudioOpts) (h : env.speechSynthesisAvailable = true) :
    (AudioGen.generateWithBrowser env text style options).isOk = true := by
  unfold AudioGen.generateWithBrowser
  rw [h]
  cases henv : env.recordedBlobUrl <;> simp [henv, Except.isOk, Except.toBool]

/-- C3: `generateAudio` never surfaces a remote-backend exception: when local
synthesis is available the call always succeeds; a rejected result can only be
the local-synthesis backend's own failure; and on a dispatch failure (with a
cache miss) the call is retried once through `generateWithBrowser`, whose
result is returned as-is. -/
theorem generateAudio_fallback (env : AudioGen.AudioEnv)
    (st : AudioGen.AudioState) (text style : String)
    (options : AudioGen.AudioOpts) :
    (env.speechSynthesisAvailable = true →
      ( AudioGen.generateAudio env st text style options).result.isOk =
        true) ∧
    (∀ e, ( AudioGen.generateAudio env st text style options).result =
        .error e →
      env.speechSynthesisAvailable = false ∧
      AudioGen.generateWithBrowser env text style options = .error e) ∧
    ((st.audioCache.lookup
        ( AudioGen.createCacheKey text style options)).isNone = true →
      (AudioGen.dispatchService env st.currentService text style
        options).isOk = false →
      ( AudioGen.generateAudio env st text style options).result =
        AudioGen.generateWithBrowser env text style options) := by
  refine ⟨?_, ?_, ?_⟩
  · intro hspeech
    cases hc : st.audioCache.lookup
        (AudioGen.createCacheKey text style options) with
    | some cached =>
      simp [ AudioGen.generateAudio, hc, Except.isOk, Except.toBool]
    | none =>
      cases hd : AudioGen.dispatchService env st.currentService text style
          options with
      | ok r => simp [ AudioGen.generateAudio, hc, hd, Except.isOk, Except.toBool]
      | error e =>
        simp only [ AudioGen.generateAudio, hc, hd]
        exact browser_total env text style options hspeech
  · intro e he
    cases hc : st.audioCache.lookup
        (AudioGen.createCacheKey text style options) with
    | some cached => simp [ AudioGen.generateAudio, hc] at he
    | none =>
      cases hd : AudioGen.dispatchService env st.currentService text style
          options with
      | ok r => simp [ AudioGen.generateAudio, hc, hd] at he
      | error e2 =>
        simp only [ AudioGen.generateAudio, hc, hd] at he
        refine ⟨?_, he⟩
        by_contra hs
        have hbt := browser_total env text style options
          (by revert hs; cases env.speechSynthesisAvailable <;> simp)
        rw [he] at hbt
        simp [Except.isOk, Except.toBool] at hbt
  · intro hmiss hfail
    have hc := Option.isNone_iff_eq_none.mp hmiss
    cases hd : AudioGen.dispatchService env st.currentService text style
        options with
    | ok r =>
      rw [hd] at hfail
      simp [Except.isOk, Except.toBool] at hfail
    | error e => simp [ AudioGen.generateAudio, hc, hd]

/-- Witness for C3: a successful browser call, a propagated local-synthesis
failure, and a remote failure retried through the browser backend. -/
theorem generateAudio_fallback_witness :
    ( AudioGen.generateAudio audioEnvOk audioStateEmpty "hello" "pop"
      {}).result.isOk = true ∧
    (audioEnvNoSpeech.speechSynthesisAvailable = false ∧
      AudioGen.generateWithBrowser audioEnvNoSpeech "hello" "pop" {} =
        .error "Speech synthesis not supported") ∧
    ( AudioGen.generateAudio audioEnvOk audioStateGoogle "hello" "pop"
      {}).result = AudioGen.generateWithBrowser audioEnvOk "hello" "pop" {} :=
  ⟨(generateAudio_fallback audioEnvOk audioStateEmpty "hello" "pop" {}).1 rfl,
   (generateAudio_fallback audioEnvNoSpeech audioStateEmpty "hello" "pop"
     {}).2.1 "Speech synthesis not supported" rfl,
   (generateAudio_fallback audioEnvOk audioStateGoogle "hello" "pop" {}).2.2
     rfl rfl⟩


theorem mapSet_length_le (m : List (String × AudioGen.AudioResult))
    (k : String) (v : AudioGen.AudioResult) :
    (AudioGen.mapSet m k v).length ≤ m.length + 1 := by
  unfold AudioGen.mapSet
  split
  · simp
  · simp

theorem lookup_append_right (m m2 : List (String × AudioGen.AudioResult))
    (k : String) (h : m.lookup k = none) :
    (m ++ m2).lookup k = m2.lookup k := by
  induction m with
  | nil => simp
  | cons e t ih =>
    obtain ⟨ek, ev⟩ := e
    rw [List.lookup_cons] at h
    rw [List.cons_append, List.lookup_cons]
    cases hek : (k == ek) with
    | true => rw [hek] at h; simp at h
    | false =>
      rw [hek] at h
      simpa using ih h

theorem lookup_mapSet (m : List (String × AudioGen.AudioResult)) (k : String)
    (v : AudioGen.AudioResult) :
    (AudioGen.mapSet m k v).lookup k = some v := by
  unfold AudioGen.mapSet
  split
  · rename_i hsome
    induction m with
    | nil => simp at hsome
    | cons e t ih =>
      obtain ⟨ek, ev⟩ := e
      cases hek : (ek == k) with
      | true =>
        have hje : ek = k := by simpa using hek
        subst hje
        simp [List.lookup_cons]
      | false =>
        have hne : ¬(ek = k) := by simpa using hek
        have hk : (k == ek) = false :=
          beq_eq_false_iff_ne.mpr (fun hkk => hne hkk.symm)
        rw [List.lookup_cons, hk] at hsome
        simpa [List.lookup_cons, hne, hk] using ih hsome
  · rename_i hnone
    have h : m.lookup k = none := by
      cases hm : m.lookup k with
      | none => rfl
      | some x => rw [hm] at hnone; simp at hnone
    rw [lookup_append_right m [(k, v)] k h, List.lookup_cons]
    simp

theorem lookup_cacheAudio (cache : List (String × AudioGen.AudioResult))
    (k : String) (v : AudioGen.AudioResult) :
    ( AudioGen.cacheAudio cache k v).lookup k = some v := by
  unfold AudioGen.cacheAudio
  exact lookup_mapSet _ k v

theorem lookup_none_of_not_mem (x : String)
    (m : List (String × AudioGen.AudioResult))
    (hx : x ∉ m.map Prod.fst) : m.lookup x = none := by
  induction m with
  | nil => simp
  | cons e t ih =>
    obtain ⟨ek, ev⟩ := e
    simp only [List.map_cons, List.mem_cons, not_or] at hx
    rw [List.lookup_cons]
    have hxe : (x == ek) = false := beq_eq_false_iff_ne.mpr hx.1
    rw [hxe]
    exact ih hx.2

/-- C4: the audio cache keeps at most `maxCacheSize` entries after every
insert; with a cache miss and a successful dispatch, two `generateAudio`
requests for the same `(text, style, gender)` perform exactly one backend
call, the second being served from the cache; and inserting a distinct key
into a full cache evicts the first-inserted entry (FIFO). -/
theorem audioCache_fifo :
    (∀ (cache : List (String × AudioGen.AudioResult)) (k : String)
      (v : AudioGen.AudioResult),
      cache.length ≤ AudioGen.maxCacheSize →
      ( AudioGen.cacheAudio cache k v).length ≤ AudioGen.maxCacheSize) ∧
    (∀ (env : AudioGen.AudioEnv) (st : AudioGen.AudioState)
      (text style : String) (options : AudioGen.AudioOpts)
      (r : AudioGen.AudioResult),
      (st.audioCache.lookup
        ( AudioGen.createCacheKey text style options)).isNone = true →
      AudioGen.dispatchService env st.currentService text style options =
        .ok r →
      ( AudioGen.generateAudio env st text style options).backendCalls = 1 ∧
      ( AudioGen.generateAudio env
          ( AudioGen.generateAudio env st text style options).state
          text style options).backendCalls = 0 ∧
      ( AudioGen.generateAudio env
          ( AudioGen.generateAudio env st text style options).state
          text style options).result = .ok r) ∧
    (∀ (e : String × AudioGen.AudioResult)
      (t : List (String × AudioGen.AudioResult)) (k : String)
      (v : AudioGen.AudioResult),
      (e :: t).length = AudioGen.maxCacheSize →
      ((e :: t).lookup k).isNone = true →
      AudioGen.cacheAudio (e :: t) k v = t ++ [(k, v)] ∧
      (((e :: t).map Prod.fst).Nodup →
        ((t ++ [(k, v)]).lookup e.1).isNone = true)) := by
  refine ⟨?_, ?_, ?_⟩
  · intro cache k v hle
    unfold AudioGen.cacheAudio
    split
    · rename_i hge
      cases cache with
      | nil => simp [AudioGen.maxCacheSize] at hge
      | cons e t =>
        simp only [List.head?_cons]
        rw [List.eraseP_cons_of_pos (by simp)]
        have hms := mapSet_length_le t k v
        simp only [AudioGen.maxCacheSize, List.length_cons] at hge hle ⊢
        omega
    · rename_i hlt
      have hms := mapSet_length_le cache k v
      simp only [AudioGen.maxCacheSize] at hlt hle ⊢
      omega
  · intro env st text style options r hmiss hok
    have hc := Option.isNone_iff_eq_none.mp hmiss
    have h1 : AudioGen.generateAudio env st text style options =
        { result := .ok r
          state := { st with
            audioCache := ( AudioGen.cacheAudio st.audioCache
              (AudioGen.createCacheKey text style options) r) }
          backendCalls := 1 } := by
      simp only [ AudioGen.generateAudio, hc, hok]
    refine ⟨by rw [h1], ?_, ?_⟩ <;>
      rw [h1] <;>
      simp [ AudioGen.generateAudio, lookup_cacheAudio]
  · intro e t k v hlen hmiss
    obtain ⟨ek, ev⟩ := e
    have hk : (k == ek) = false := by
      cases hkk : (k == ek) with
      | true =>
        rw [List.lookup_cons, hkk] at hmiss
        simp at hmiss
      | false => rfl
    have hmisst : (t.lookup k).isNone = true := by
      rw [List.lookup_cons, hk] at hmiss
      exact hmiss
    have htlook : t.lookup k = none := Option.isNone_iff_eq_none.mp hmisst
    have heq : AudioGen.cacheAudio ((ek, ev) :: t) k v = t ++ [(k, v)] := by
      simp only [ AudioGen.cacheAudio]
      rw [if_pos hlen.ge]
      simp only [List.head?_cons]
      rw [List.eraseP_cons_of_pos (by simp)]
      simp [ AudioGen.mapSet, htlook]
    refine ⟨heq, ?_⟩
    intro hnodup
    simp only [List.map_cons, List.nodup_cons] at hnodup
    have hek_t : t.lookup ek = none :=
      lookup_none_of_not_mem ek t hnodup.1
    rw [lookup_append_right t [(k, v)] ek hek_t, List.lookup_cons]
    have hke : (ek == k) = false :=
      beq_eq_false_iff_ne.mpr
        (fun hkk => (beq_eq_false_iff_ne.mp hk) hkk.symm)
    rw [hke]
    rfl

/-- Witness for C4: a full synthetic cache plus a concrete two-request run. -/
theorem audioCache_fifo_witness :
    ( AudioGen.cacheAudio (cacheEntry 0 :: tailCache) "new" audioResultStub) =
      tailCache ++ [("new", audioResultStub)] ∧
    ( AudioGen.generateAudio audioEnvOk audioStateEmpty "hello" "pop"
      {}).backendCalls = 1 ∧
    ( AudioGen.generateAudio audioEnvOk
        ( AudioGen.generateAudio audioEnvOk audioStateEmpty "hello" "pop"
          {}).state "hello" "pop" {}).backendCalls = 0 ∧
    ( AudioGen.generateAudio audioEnvOk
        ( AudioGen.generateAudio audioEnvOk audioStateEmpty "hello" "pop"
          {}).state "hello" "pop" {}).result = .ok browserStubResult := by
  have hev := (audioCache_fifo.2.2 (cacheEntry 0) tailCache "new"
    audioResultStub (by decide) (by decide)).1
  have htwo := audioCache_fifo.2.1 audioEnvOk audioStateEmpty "hello" "pop" {}
    browserStubResult (by decide) rfl
  exact ⟨hev, htwo.1, htwo.2.1, htwo.2.2⟩
